import Mathlib

/-!
# DDrawCompat — `Gdi/DcFunctions.cpp`

A shallow embedding of the interception wrappers of `Gdi/DcFunctions.cpp`.

* Every handle, scalar and untyped pointer is an `Int` (`0` is `nullptr`).
* Pointers to records that the wrappers read through are `Option`s.
* Effects on the outside world are appended, in program order, to the `trace`
  of the `State`; every value an outside call hands back is read from an
  `Env` oracle that sees the `State` at the moment of the call.
* The logging wrappers `LOG_FUNC` / `LOG_RESULT` are not modelled:
  `LOG_RESULT(x)` evaluates to `x`.
-/

namespace DcFunctions

/-! ## Data model -/

abbrev HDC := Int
abbrev HWND := Int
abbrev HBITMAP := Int

/-- The Win32 `POINT`. -/
structure POINT where
  x : Int
  y : Int
  deriving DecidableEq, Repr

/-- The Win32 `RECT`. -/
structure RECT where
  left : Int
  top : Int
  right : Int
  bottom : Int
  deriving DecidableEq, Repr

/-- The two rectangles of `WINDOWINFO` read by the `ExtTextOutW` wrapper. -/
structure WINDOWINFO where
  rcWindow : RECT
  rcClient : RECT
  deriving DecidableEq, Repr

/-- The two fields of `BITMAPINFOHEADER` read by `createDIBitmap`; `rest` stands for
the remaining fields. -/
structure BITMAPINFOHEADER where
  biWidth : Int
  biHeight : Int
  rest : Int
  deriving DecidableEq, Repr

/-- The Win32 `BITMAPINFO`: a header followed by the colour table. -/
structure BITMAPINFO where
  bmiHeader : BITMAPINFOHEADER
  bmiColors : Int
  deriving DecidableEq, Repr

/-- The fields of `WNDCLASSEX` touched by `registerClassEx`; `rest` stands for the
remaining fields. -/
structure WndClassEx where
  lpfnWndProc : Int
  hIcon : Int
  hIconSm : Int
  rest : Int
  deriving DecidableEq, Repr

/-- Terms built by the operations the `ExtTextOutW` wrapper applies to a `Gdi::Region`
(constructor from a `RECT`, `operator-=` with a `RECT`, `offset`). -/
inductive Region where
  | ofRect (r : RECT)
  | subRect (a : Region) (r : RECT)
  | offset (a : Region) (dx dy : Int)
  deriving DecidableEq, Repr

/-- Symbols that occur as the template argument of `Compat::getOrigFuncPtr`
(also through `CALL_ORIG_FUNC`) or of the attribute templates. The lower-case
`createDiscardableBitmap` is the wrapper of this file, named at line 246. -/
inductive FuncSym where
  | AlphaBlend | BitBlt | ExtFloodFill | GdiAlphaBlend | GdiGradientFill
  | GdiTransparentBlt | GetDIBits | GetPixel | GradientFill | MaskBlt | PlgBlt
  | SetDIBits | SetDIBitsToDevice | SetPixel | SetPixelV | StretchBlt
  | StretchDIBits | TransparentBlt | PatBlt | DrawEscape | Chord | Ellipse
  | FillRect | FrameRect | InvertRect | Pie | Polygon | PolyPolygon | Rectangle
  | RoundRect | DrawTextA | DrawTextW | DrawTextExA | DrawTextExW | ExtTextOutA
  | ExtTextOutW | PolyTextOutA | PolyTextOutW | TabbedTextOutA | TabbedTextOutW
  | TextOutA | TextOutW | DrawIcon | DrawIconEx | AngleArc | Arc | ArcTo | LineTo
  | PolyBezier | PolyBezierTo | PolyDraw | Polyline | PolylineTo | PolyPolyline
  | DrawEdge | DrawFocusRect | DrawFrameControl | DrawStateA | DrawStateW
  | GrayStringA | GrayStringW | PaintDesktop | FillRgn | FrameRgn | InvertRgn
  | PaintRgn | ScrollDC | GdiDrawStream | PolyPatBlt
  | WindowFromDC | CreateCompatibleBitmap | CreateDIBitmap
  | CreateDiscardableBitmap | createDiscardableBitmap | DrawCaption
  | RegisterClassExA | RegisterClassExW | SetClassLongA | SetClassLongW
  | DefWindowProcA | DefWindowProcW
  deriving DecidableEq, Repr

/-- One argument of an intercepted call, tagged by its static type: an `HDC`, a
pointer to one of the records above, or any other scalar or pointer. -/
inductive Arg where
  | hdc (h : HDC)
  | val (v : Int)
  | bmih (p : Option BITMAPINFOHEADER)
  | bmi (p : Option BITMAPINFO)
  | wndClassEx (p : Option WndClassEx)
  deriving DecidableEq, Repr

/-- The `Gdi::Access` intent passed to `Gdi::AccessGuard`. -/
inductive Access where
  | ACCESS_READ
  | ACCESS_WRITE
  deriving DecidableEq, Repr

/-- One effect on the outside world. Calls that hand a value back record it. -/
inductive Event where
  | enterCriticalSection
  | leaveCriticalSection
  | acquireGuard (access : Access)
  | releaseGuard
  | getDc (origDc : HDC) (result : HDC)
  | releaseDc (origDc : HDC)
  | callOrig (f : FuncSym) (args : List Arg) (result : Int)
  | getCurrentPositionEx (dc : HDC) (pos : POINT)
  | moveToEx (dc : HDC) (x y : Int)
  | sendMessage (hwnd : HWND) (msg wParam lParam : Int) (result : Int)
  | redrawWindow (hwnd : HWND) (rgn : Option Region) (flags : Nat)
  | createOffScreenDib (width height : Int) (result : HBITMAP)
  | setDIBits (hdc : HDC) (bitmap : HBITMAP) (start : Int) (lines : Int)
      (bits : Int) (lpbmi : Option BITMAPINFO) (usage : Int)
  | setRedirectToDib (value : Bool)
  | createWindow (atom : Int) (result : HWND)
  | unregisterClass (atom : Int) (hInstance : Int)
  | setClassLong (hwnd : HWND) (nIndex : Int) (value : Int)
  | setWindowLong (hwnd : HWND) (nIndex : Int) (value : Int)
  | destroyWindow (hwnd : HWND)
  deriving DecidableEq, Repr

/-- The thread-local `g_redirectToDib` and the effects performed so far. -/
structure State where
  redirectToDib : Bool
  trace : List Event
  deriving DecidableEq, Repr

/-- The state of a thread before any wrapper ran: `g_redirectToDib = true`. -/
def State.initial : State := { redirectToDib := true, trace := [] }

/-- Append one effect. -/
def State.emit (s : State) (e : Event) : State :=
  { s with trace := s.trace ++ [e] }

/-- The assignment `g_redirectToDib = value`. -/
def State.setRedirect (s : State) (value : Bool) : State :=
  { redirectToDib := value, trace := s.trace ++ [Event.setRedirectToDib value] }

/-- What stops a wrapper before it returns. -/
inductive Fault where
  | nullDereference
  deriving DecidableEq, Repr

/-- What the collaborators outside this file answer. Queries without effect are
plain functions; the answer of a call with an effect may depend on the state at the
call. `MENU_ATOM` is `Gdi::MENU_ATOM` of `Gdi/Gdi.h`. -/
structure Env where
  isDisplayDc : HDC → Bool
  getDc : State → HDC → HDC
  origFunc : State → FuncSym → List Arg → Int
  origFuncAddr : FuncSym → Int
  getCurrentPositionEx : State → HDC → POINT
  MENU_ATOM : Int
  getClassLong : HWND → Int → Int
  getCurrentThreadId : Int
  getWindowThreadProcessId : HWND → Int
  LPtoDP : HDC → POINT → POINT
  getWindowRect : HWND → RECT
  getWindowInfo : HWND → WINDOWINFO
  sendMessage : State → HWND → Int → Int → Int → Int
  createOffScreenDib : State → Int → Int → HBITMAP
  createWindow : State → Int → HWND
  getModuleHandle : Int

/-! ## Platform constants (Windows SDK) -/

def GCW_ATOM : Int := -32
def GCL_HICON : Int := -14
def GCL_HICONSM : Int := -34
def GCL_WNDPROC : Int := -24
def GWL_WNDPROC : Int := -4
def WM_NCHITTEST : Int := 0x84
def HTCAPTION : Int := 2
def HTMENU : Int := 5
def HTBORDER : Int := 18
def RDW_INVALIDATE : Nat := 0x1
def RDW_ERASE : Nat := 0x4
def RDW_FRAME : Nat := 0x400
def TRUE : Int := 1
def CBM_CREATDIB : Nat := 2

/-! ## Attribute templates (lines 53–85) -/

/-- The `isPositionUpdated` template: `false` unless specialised (lines 71–81). -/
def isPositionUpdated : FuncSym → Bool
  | .AngleArc => true
  | .ArcTo => true
  | .LineTo => true
  | .PolyBezierTo => true
  | .PolyDraw => true
  | .PolylineTo => true
  | .ExtTextOutA => true
  | .ExtTextOutW => true
  | .PolyTextOutA => true
  | .PolyTextOutW => true
  | .TabbedTextOutA => true
  | .TabbedTextOutW => true
  | .TextOutA => true
  | .TextOutW => true
  | _ => false

/-- The `isReadOnly` template: `false` unless specialised (lines 83–85). -/
def isReadOnly : FuncSym → Bool
  | .GetDIBits => true
  | .GetPixel => true
  | _ => false

/-! ## `CompatDc` (lines 17–48) -/

/-- The class `CompatDc`. -/
structure CompatDc where
  m_origDc : HDC
  m_compatDc : HDC
  deriving DecidableEq, Repr

/-- The constructor `CompatDc(HDC dc)`: `m_compatDc(Gdi::Dc::getDc(dc, false))`. -/
def CompatDc.ctor (env : Env) (dc : HDC) (s : State) : CompatDc × State :=
  let r := env.getDc s dc
  ({ m_origDc := dc, m_compatDc := r }, s.emit (Event.getDc dc r))

/-- The destructor `~CompatDc()`. -/
def CompatDc.dtor (c : CompatDc) (s : State) : State :=
  if c.m_compatDc ≠ 0 then s.emit (Event.releaseDc c.m_origDc) else s

/-- The conversion `operator HDC() const`. -/
def CompatDc.toHDC (c : CompatDc) : HDC :=
  if c.m_compatDc ≠ 0 then c.m_compatDc else c.m_origDc

/-! ## Scanner and substitution (lines 93–129) -/

/-- The one-argument overloads of `hasDisplayDcArg`: `Gdi::isDisplayDc` for an `HDC`,
`false` for every other type. -/
def hasDisplayDcArg1 (env : Env) : Arg → Bool
  | .hdc dc => env.isDisplayDc dc
  | _ => false

/-- The variadic `hasDisplayDcArg(t, params...)`. -/
def hasDisplayDcArg (env : Env) : List Arg → Bool
  | [] => false
  | t :: params => hasDisplayDcArg1 env t || hasDisplayDcArg env params

/-- The pack expansion `replaceDc(params)...`: an `HDC` becomes a `CompatDc` temporary
that is passed on through `operator HDC`, anything else is passed on as it is.
Temporaries are built left to right (the language leaves the order open). Returns
the arguments handed to the original function and the temporaries, oldest first. -/
def replaceDcParams (env : Env) : List Arg → State → List Arg × List CompatDc × State
  | [], s => ([], [], s)
  | .hdc dc :: params, s =>
      let (c, s1) := CompatDc.ctor env dc s
      let (args, cs, s2) := replaceDcParams env params s1
      (.hdc c.toHDC :: args, c :: cs, s2)
  | t :: params, s =>
      let (args, cs, s2) := replaceDcParams env params s
      (t :: args, cs, s2)

/-- Run the destructors of the given objects, first to last. -/
def destroyAll : List CompatDc → State → State
  | [], s => s
  | c :: cs, s => destroyAll cs (c.dtor s)

/-! ## The generic dispatcher (lines 131–154) -/

/-- The primary template `compatGdiDcFunc<OrigFuncPtr, origFunc>(hdc, params...)`. -/
def compatGdiDcFunc (env : Env) (origFunc : FuncSym) (hdc : HDC) (params : List Arg)
    (s : State) : Int × State :=
  if hasDisplayDcArg env (.hdc hdc :: params) then
    let s1 := s.emit .enterCriticalSection
    let s2 := s1.emit (.acquireGuard
      (if isReadOnly origFunc then .ACCESS_READ else .ACCESS_WRITE))
    let (compatDc, s3) := CompatDc.ctor env hdc s2
    let (args, temps, s4) := replaceDcParams env params s3
    let result := env.origFunc s4 origFunc (.hdc compatDc.toHDC :: args)
    let s5 := s4.emit (.callOrig origFunc (.hdc compatDc.toHDC :: args) result)
    let s6 := destroyAll temps.reverse s5
    let s7 :=
      if isPositionUpdated origFunc && result != 0 then
        let currentPos := env.getCurrentPositionEx s6 compatDc.toHDC
        let s6a := s6.emit (.getCurrentPositionEx compatDc.toHDC currentPos)
        s6a.emit (.moveToEx hdc currentPos.x currentPos.y)
      else s6
    let s8 := compatDc.dtor s7
    let s9 := s8.emit .releaseGuard
    (result, s9.emit .leaveCriticalSection)
  else
    let result := env.origFunc s origFunc (.hdc hdc :: params)
    (result, s.emit (.callOrig origFunc (.hdc hdc :: params) result))

/-! ## The `ExtTextOutW` specialisation (lines 110–118, 156–203) -/

/-- A value stored in a 32-bit signed `LONG`. -/
def toLONG (v : Int) : Int := (v + 2 ^ 31) % 2 ^ 32 - 2 ^ 31

/-- The function `lpToScreen`: returns its `bool` and the updated `p`. -/
def lpToScreen (env : Env) (hwnd : HWND) (dc : HDC) (p : POINT) : Bool × POINT :=
  let p1 := env.LPtoDP dc p
  let wr := env.getWindowRect hwnd
  (true, { x := p1.x + wr.left, y := p1.y + wr.top })

/-- The `LPARAM` of the `WM_NCHITTEST` message at line 173:
`(p.y << 16) | (p.x & 0xFFFF)`. -/
def ncHitTestLParam (p : POINT) : Int :=
  toLONG (Int.lor (p.y <<< (16 : Int)) (Int.land p.x 0xFFFF))

/-- The argument list of `ExtTextOutW` as the wrapper receives it. -/
def extTextOutArgs (hdc : HDC) (x y options lprect lpString c lpDx : Int) : List Arg :=
  [.hdc hdc, .val x, .val y, .val options, .val lprect, .val lpString, .val c, .val lpDx]

/-- The last `else` block of the display branch (lines 183–195). -/
def extTextOutW_guarded (env : Env) (hdc : HDC)
    (x y options lprect lpString c lpDx : Int) (s : State) : Int × State :=
  let s1 := s.emit .enterCriticalSection
  let s2 := s1.emit (.acquireGuard .ACCESS_WRITE)
  let (compatDc, s3) := CompatDc.ctor env hdc s2
  let args := extTextOutArgs compatDc.toHDC x y options lprect lpString c lpDx
  let result := env.origFunc s3 .ExtTextOutW args
  let s4 := s3.emit (.callOrig .ExtTextOutW args result)
  let s5 :=
    if result != 0 then
      let currentPos := env.getCurrentPositionEx s4 compatDc.toHDC
      let s4a := s4.emit (.getCurrentPositionEx compatDc.toHDC currentPos)
      s4a.emit (.moveToEx hdc currentPos.x currentPos.y)
    else s4
  let s6 := compatDc.dtor s5
  let s7 := s6.emit .releaseGuard
  (result, s7.emit .leaveCriticalSection)

/-- The region built at lines 177–179. -/
def ncRegion (wi : WINDOWINFO) : Region :=
  .offset (.subRect (.ofRect wi.rcWindow) wi.rcClient) (-wi.rcClient.left) (-wi.rcClient.top)

/-- The specialisation `compatGdiDcFunc<decltype(&ExtTextOutW), &ExtTextOutW>`. -/
def compatGdiDcFunc_ExtTextOutW (env : Env) (hdc : HDC)
    (x y options lprect lpString c lpDx : Int) (s : State) : Int × State :=
  if hasDisplayDcArg env [.hdc hdc] then
    let hwnd := env.origFunc s .WindowFromDC [.hdc hdc]
    let s1 := s.emit (.callOrig .WindowFromDC [.hdc hdc] hwnd)
    let atom := env.getClassLong hwnd GCW_ATOM % 65536
    let p : POINT := { x := x, y := y }
    if env.MENU_ATOM = atom then
      (TRUE, s1.emit (.redrawWindow hwnd none (RDW_INVALIDATE ||| RDW_ERASE)))
    else if env.getCurrentThreadId = env.getWindowThreadProcessId hwnd then
      let (ok, p1) := lpToScreen env hwnd hdc p
      if ok then
        let lParam := ncHitTestLParam p1
        let ht := env.sendMessage s1 hwnd WM_NCHITTEST 0 lParam
        let s2 := s1.emit (.sendMessage hwnd WM_NCHITTEST 0 lParam ht)
        if HTMENU = ht then
          let wi := env.getWindowInfo hwnd
          (TRUE, s2.emit (.redrawWindow hwnd (some (ncRegion wi))
            (RDW_INVALIDATE ||| RDW_FRAME)))
        else extTextOutW_guarded env hdc x y options lprect lpString c lpDx s2
      else extTextOutW_guarded env hdc x y options lprect lpString c lpDx s1
    else extTextOutW_guarded env hdc x y options lprect lpString c lpDx s1
  else
    let args := extTextOutArgs hdc x y options lprect lpString c lpDx
    let result := env.origFunc s .ExtTextOutW args
    (result, s.emit (.callOrig .ExtTextOutW args result))

/-! ## Bitmap creation (lines 212–247) -/

/-- The wrapper `createCompatibleBitmap`. -/
def createCompatibleBitmap (env : Env) (hdc : HDC) (cx cy : Int) (s : State) :
    HBITMAP × State :=
  if s.redirectToDib && env.isDisplayDc hdc then
    let r := env.createOffScreenDib s cx cy
    (r, s.emit (.createOffScreenDib cx cy r))
  else
    let r := env.origFunc s .CreateCompatibleBitmap [.hdc hdc, .val cx, .val cy]
    (r, s.emit (.callOrig .CreateCompatibleBitmap [.hdc hdc, .val cx, .val cy] r))

/-- The argument list of `CreateDIBitmap` as the wrapper receives it. -/
def createDIBitmapArgs (hdc : HDC) (lpbmih : Option BITMAPINFOHEADER) (fdwInit : Nat)
    (lpbInit : Int) (lpbmi : Option BITMAPINFO) (fuUsage : Int) : List Arg :=
  [.hdc hdc, .bmih lpbmih, .val fdwInit, .val lpbInit, .bmi lpbmi, .val fuUsage]

/-- The wrapper `createDIBitmap`. Reading `lpbmi->bmiHeader` through a null `lpbmi`
is a fault. -/
def createDIBitmap (env : Env) (hdc : HDC) (lpbmih : Option BITMAPINFOHEADER)
    (fdwInit : Nat) (lpbInit : Int) (lpbmi : Option BITMAPINFO) (fuUsage : Int)
    (s : State) : Except Fault (HBITMAP × State) :=
  if s.redirectToDib && (fdwInit &&& CBM_CREATDIB == 0) && lpbmih.isSome
      && env.isDisplayDc hdc then
    match lpbmi with
    | none => .error .nullDereference
    | some bmi =>
      let bitmap := env.createOffScreenDib s bmi.bmiHeader.biWidth bmi.bmiHeader.biHeight
      let s1 := s.emit
        (.createOffScreenDib bmi.bmiHeader.biWidth bmi.bmiHeader.biHeight bitmap)
      if bitmap != 0 && lpbInit != 0 && lpbmi.isSome then
        .ok (bitmap, s1.emit
          (.setDIBits hdc bitmap 0 |bmi.bmiHeader.biHeight| lpbInit lpbmi fuUsage))
      else .ok (bitmap, s1)
  else
    let args := createDIBitmapArgs hdc lpbmih fdwInit lpbInit lpbmi fuUsage
    let r := env.origFunc s .CreateDIBitmap args
    .ok (r, s.emit (.callOrig .CreateDIBitmap args r))

/-- The wrapper `createDiscardableBitmap`. Line 246 names the wrapper itself inside
`CALL_ORIG_FUNC`. -/
def createDiscardableBitmap (env : Env) (hdc : HDC) (nWidth nHeight : Int) (s : State) :
    HBITMAP × State :=
  if s.redirectToDib && env.isDisplayDc hdc then
    let r := env.createOffScreenDib s nWidth nHeight
    (r, s.emit (.createOffScreenDib nWidth nHeight r))
  else
    let r := env.origFunc s .createDiscardableBitmap [.hdc hdc, .val nWidth, .val nHeight]
    (r, s.emit (.callOrig .createDiscardableBitmap [.hdc hdc, .val nWidth, .val nHeight] r))

/-! ## Caption drawing (lines 249–259) -/

/-- The template `registerClassEx`. The three function pointers it receives are the
symbols of the original functions; `origDefWindowProc` is stored as a value. The
calls written `SetClassLong`, `SetWindowLong`, `CreateWindow`, `UnregisterClass` and
`DestroyWindow` go to the platform entry points and are recorded as such. -/
def registerClassEx (env : Env) (lpWndClassEx : Option WndClassEx)
    (origRegisterClassEx origSetClassLong : FuncSym) (origDefWindowProc : Int)
    (s : State) : Int × State :=
  match lpWndClassEx with
  | none =>
    let r := env.origFunc s origRegisterClassEx [.wndClassEx none]
    (r, s.emit (.callOrig origRegisterClassEx [.wndClassEx none] r))
  | some cls =>
    if cls.hIcon = 0 ∧ cls.hIconSm = 0 then
      let r := env.origFunc s origRegisterClassEx [.wndClassEx (some cls)]
      (r, s.emit (.callOrig origRegisterClassEx [.wndClassEx (some cls)] r))
    else
      let wc : WndClassEx :=
        { cls with lpfnWndProc := origDefWindowProc, hIcon := 0, hIconSm := 0 }
      let atom := env.origFunc s origRegisterClassEx [.wndClassEx (some wc)]
      let s1 := s.emit (.callOrig origRegisterClassEx [.wndClassEx (some wc)] atom)
      if atom ≠ 0 then
        let hwnd := env.createWindow s1 atom
        let s2 := s1.emit (.createWindow atom hwnd)
        if hwnd = 0 then
          let s3 := s2.emit (.unregisterClass atom env.getModuleHandle)
          let r := env.origFunc s3 origRegisterClassEx [.wndClassEx (some cls)]
          (r, s3.emit (.callOrig origRegisterClassEx [.wndClassEx (some cls)] r))
        else
          let s3 := if cls.hIcon ≠ 0 then s2.emit (.setClassLong hwnd GCL_HICON cls.hIcon)
            else s2
          let s4 := if cls.hIconSm ≠ 0 then
            s3.emit (.setClassLong hwnd GCL_HICONSM cls.hIconSm) else s3
          let wndProcArgs : List Arg := [.val hwnd, .val GCL_WNDPROC, .val cls.lpfnWndProc]
          let r5 := env.origFunc s4 origSetClassLong wndProcArgs
          let s5 := s4.emit (.callOrig origSetClassLong wndProcArgs r5)
          let s6 := s5.emit (.setWindowLong hwnd GWL_WNDPROC (env.origFuncAddr .DefWindowProcA))
          (atom, s6.emit (.destroyWindow hwnd))
      else (atom, s1)

/-- The wrapper `registerClassExA`. -/
def registerClassExA (env : Env) (lpWndClassEx : Option WndClassEx) (s : State) :
    Int × State :=
  registerClassEx env lpWndClassEx .RegisterClassExA .SetClassLongA
    (env.origFuncAddr .DefWindowProcA) s

/-- The wrapper `registerClassExW`. -/
def registerClassExW (env : Env) (lpWndClassEx : Option WndClassEx) (s : State) :
    Int × State :=
  registerClassEx env lpWndClassEx .RegisterClassExW .SetClassLongW
    (env.origFuncAddr .DefWindowProcW) s

/-- The function `setClassLong`. -/
def setClassLong (env : Env) (hWnd : HWND) (nIndex dwNewLong : Int)
    (origSetClassLong : FuncSym) (s : State) : Int × State :=
  if GCL_HICON = nIndex ∨ GCL_HICONSM = nIndex then
    let s1 := s.setRedirect false
    let result := env.origFunc s1 origSetClassLong [.val hWnd, .val nIndex, .val dwNewLong]
    let s2 := s1.emit
      (.callOrig origSetClassLong [.val hWnd, .val nIndex, .val dwNewLong] result)
    (result, s2.setRedirect true)
  else
    let result := env.origFunc s origSetClassLong [.val hWnd, .val nIndex, .val dwNewLong]
    (result, s.emit
      (.callOrig origSetClassLong [.val hWnd, .val nIndex, .val dwNewLong] result))

/-- The wrapper `setClassLongA`. -/
def setClassLongA (env : Env) (hWnd : HWND) (nIndex dwNewLong : Int) (s : State) :
    Int × State :=
  setClassLong env hWnd nIndex dwNewLong .SetClassLongA s

/-- The wrapper `setClassLongW`. -/
def setClassLongW (env : Env) (hWnd : HWND) (nIndex dwNewLong : Int) (s : State) :
    Int × State :=
  setClassLong env hWnd nIndex dwNewLong .SetClassLongW s

/-! ## A concrete environment -/

/-- A small world: handle `1` is the display and has substitute `101`, every original
function answers `1`, except that window creation can be made to fail. -/
def sampleEnv : Env where
  isDisplayDc := fun dc => dc == 1
  getDc := fun _ dc => if dc == 1 then 101 else 0
  origFunc := fun _ f _ => if f = .WindowFromDC then 7 else 1
  origFuncAddr := fun _ => 4096
  getCurrentPositionEx := fun _ _ => { x := 3, y := 4 }
  MENU_ATOM := 0x8000
  getClassLong := fun _ _ => 0xC001
  getCurrentThreadId := 11
  getWindowThreadProcessId := fun _ => 11
  LPtoDP := fun _ p => p
  getWindowRect := fun _ => { left := 100, top := 50, right := 300, bottom := 250 }
  getWindowInfo := fun _ =>
    { rcWindow := { left := 100, top := 50, right := 300, bottom := 250 },
      rcClient := { left := 104, top := 80, right := 296, bottom := 246 } }
  sendMessage := fun _ _ _ _ _ => HTMENU
  createOffScreenDib := fun _ _ _ => 900
  createWindow := fun _ _ => 0
  getModuleHandle := 4194304

/-- The sample world, except that the hit test answers `HTCAPTION`. -/
def captionEnv : Env :=
  { sampleEnv with sendMessage := fun _ _ _ _ _ => HTCAPTION }

/-- A bitmap header asking for 10 by 20 pixels. -/
def header10x20 : BITMAPINFOHEADER := { biWidth := 10, biHeight := 20, rest := 0 }

/-- A bitmap description whose header says 30 by 40 pixels. -/
def info30x40 : BITMAPINFO :=
  { bmiHeader := { biWidth := 30, biHeight := 40, rest := 0 }, bmiColors := 0 }

/-- A class record with a large icon and no small icon. -/
def iconClass : WndClassEx := { lpfnWndProc := 5, hIcon := 6, hIconSm := 0, rest := 9 }

/-! ## Observations on traces -/

/-- The effects performed between two states of one thread. -/
def newEvents (before after : State) : List Event :=
  after.trace.drop before.trace.length

/-- A call of the original function registered under `f`. -/
def Event.isCallOrigOf (f : FuncSym) : Event → Bool
  | .callOrig g _ _ => g == f
  | _ => false

/-- A request for an off-screen buffer. -/
def Event.isCreateOffScreenDib : Event → Bool
  | .createOffScreenDib _ _ _ => true
  | _ => false

/-- An acquisition of the access guard, with any intent. -/
def Event.isAcquireGuard : Event → Bool
  | .acquireGuard _ => true
  | _ => false

/-- A release: of a substitute DC, of the guard, or of the critical section. -/
def Event.isRelease : Event → Bool
  | .releaseDc _ => true
  | .releaseGuard => true
  | .leaveCriticalSection => true
  | _ => false

/-- A `getDc` on `dc` that handed back a non-null substitute. -/
def Event.isAcquiredDc (dc : HDC) : Event → Bool
  | .getDc o r => o == dc && r != 0
  | _ => false

/-- A `RedrawWindow` request. -/
def Event.isRedrawWindow : Event → Bool
  | .redrawWindow _ _ _ => true
  | _ => false

/-- The number of successful substitute acquisitions for `dc`. -/
def acquiredCount (dc : HDC) (ev : List Event) : Nat :=
  (ev.filter (Event.isAcquiredDc dc)).length

/-- No release happens before the first call of the original function `f`. -/
def releasesAfterOrig (f : FuncSym) (ev : List Event) : Bool :=
  (ev.takeWhile (fun e => !e.isCallOrigOf f)).all (fun e => !e.isRelease)

/-- The `getDc` effects of building the given objects, first to last. -/
def getDcEvents (cs : List CompatDc) : List Event :=
  cs.map (fun c => Event.getDc c.m_origDc c.m_compatDc)

/-- The `releaseDc` effects of destroying the given objects, first to last. -/
def releaseEvents (cs : List CompatDc) : List Event :=
  (cs.filter (fun c => c.m_compatDc != 0)).map (fun c => Event.releaseDc c.m_origDc)

/-- Every successfully acquired substitute DC is released once on its original handle,
the guard and the critical section are released as often as they were acquired, and no
release precedes the call of the original function `f`. -/
def Balanced (f : FuncSym) (ev : List Event) : Prop :=
  (∀ dc, ev.count (.releaseDc dc) = acquiredCount dc ev) ∧
  ev.count .releaseGuard = (ev.filter Event.isAcquireGuard).length ∧
  ev.count .leaveCriticalSection = ev.count .enterCriticalSection ∧
  releasesAfterOrig f ev = true

/-- An effect that is no acquisition, no release and no call of the original `f`. -/
def Event.isNeutral (f : FuncSym) : Event → Bool
  | .enterCriticalSection => false
  | .leaveCriticalSection => false
  | .acquireGuard _ => false
  | .releaseGuard => false
  | .getDc _ _ => false
  | .releaseDc _ => false
  | .callOrig g _ _ => g != f
  | _ => true

/-- The effects of one guarded substitution around a call of the original `f`: lock,
guard, substitute for the first argument, temporaries `cs` for the others, the call,
the temporaries' releases, the effects `mid`, and the releases in reverse order. -/
def frameEvents (f : FuncSym) (a : Access) (c0 : CompatDc) (cs : List CompatDc)
    (args : List Arg) (res : Int) (mid : List Event) : List Event :=
  [.enterCriticalSection, .acquireGuard a, .getDc c0.m_origDc c0.m_compatDc] ++
    getDcEvents cs ++ [.callOrig f args res] ++ releaseEvents cs.reverse ++ mid ++
    releaseEvents [c0] ++ [.releaseGuard, .leaveCriticalSection]

/-- The hit-test codes of the parts the specification's glossary counts as the
non-client region: borders, caption, menu. -/
def isNonClientHitTest (ht : Int) : Bool :=
  ht == HTCAPTION || ht == HTMENU || ht == HTBORDER

/-! ## Basic facts -/

@[simp] theorem emit_trace (s : State) (e : Event) : (s.emit e).trace = s.trace ++ [e] := rfl

@[simp] theorem emit_redirectToDib (s : State) (e : Event) :
    (s.emit e).redirectToDib = s.redirectToDib := rfl

@[simp] theorem setRedirect_trace (s : State) (b : Bool) :
    (s.setRedirect b).trace = s.trace ++ [Event.setRedirectToDib b] := rfl

@[simp] theorem setRedirect_redirectToDib (s : State) (b : Bool) :
    (s.setRedirect b).redirectToDib = b := rfl

theorem newEvents_of_append (s t : State) (d : List Event) (h : t.trace = s.trace ++ d) :
    newEvents s t = d := by
  simp [newEvents, h]

theorem hasDisplayDcArg_eq_false_iff (env : Env) (args : List Arg) :
    hasDisplayDcArg env args = false ↔
      ∀ dc, Arg.hdc dc ∈ args → env.isDisplayDc dc = false := by
  induction args with
  | nil => simp [hasDisplayDcArg]
  | cons a as ih =>
    cases a <;> simp [hasDisplayDcArg, hasDisplayDcArg1, ih]

theorem replaceDcParams_trace (env : Env) (params : List Arg) (s : State) :
    (replaceDcParams env params s).2.2.trace =
      s.trace ++ getDcEvents (replaceDcParams env params s).2.1 := by
  induction params generalizing s with
  | nil => simp [replaceDcParams, getDcEvents]
  | cons a ps ih =>
    cases a with
    | hdc dc =>
      simp only [replaceDcParams, CompatDc.ctor]
      rw [ih]
      simp [getDcEvents]
    | val v => simp only [replaceDcParams]; rw [ih]
    | bmih p => simp only [replaceDcParams]; rw [ih]
    | bmi p => simp only [replaceDcParams]; rw [ih]
    | wndClassEx p => simp only [replaceDcParams]; rw [ih]

theorem destroyAll_trace (cs : List CompatDc) (s : State) :
    (destroyAll cs s).trace = s.trace ++ releaseEvents cs := by
  induction cs generalizing s with
  | nil => simp [destroyAll, releaseEvents]
  | cons c cs ih =>
    simp only [destroyAll]
    rw [ih]
    by_cases hc : c.m_compatDc = 0
    · simp [CompatDc.dtor, releaseEvents, hc]
    · simp [CompatDc.dtor, releaseEvents, hc]

theorem dtor_trace (c : CompatDc) (s : State) :
    (c.dtor s).trace = s.trace ++ releaseEvents [c] := by
  by_cases hc : c.m_compatDc = 0
  · simp [CompatDc.dtor, releaseEvents, hc]
  · simp [CompatDc.dtor, releaseEvents, hc]

theorem mem_getDcEvents {e : Event} {cs : List CompatDc} (h : e ∈ getDcEvents cs) :
    ∃ o r, e = .getDc o r := by
  simp only [getDcEvents, List.mem_map] at h
  obtain ⟨c, _, rfl⟩ := h
  exact ⟨_, _, rfl⟩

theorem mem_releaseEvents {e : Event} {cs : List CompatDc} (h : e ∈ releaseEvents cs) :
    ∃ o, e = .releaseDc o := by
  simp only [releaseEvents, List.mem_map] at h
  obtain ⟨c, _, rfl⟩ := h
  exact ⟨_, rfl⟩

theorem filter_getDcEvents (p : Event → Bool) (hp : ∀ o r, p (.getDc o r) = false)
    (cs : List CompatDc) : (getDcEvents cs).filter p = [] := by
  rw [List.filter_eq_nil_iff]
  intro e he
  obtain ⟨o, r, rfl⟩ := mem_getDcEvents he
  simp [hp]

theorem filter_releaseEvents (p : Event → Bool) (hp : ∀ o, p (.releaseDc o) = false)
    (cs : List CompatDc) : (releaseEvents cs).filter p = [] := by
  rw [List.filter_eq_nil_iff]
  intro e he
  obtain ⟨o, rfl⟩ := mem_releaseEvents he
  simp [hp]

theorem filter_neutral (f : FuncSym) (p : Event → Bool)
    (hp : ∀ e, e.isNeutral f = true → p e = false) (l : List Event)
    (hl : ∀ e ∈ l, e.isNeutral f = true) : l.filter p = [] := by
  rw [List.filter_eq_nil_iff]
  intro e he
  simp [hp e (hl e he)]

theorem count_eq_length_filter (a : Event) (l : List Event) :
    l.count a = (l.filter (fun e => e == a)).length := by
  rw [List.count, List.countP_eq_length_filter]

theorem releaseEvents_reverse (cs : List CompatDc) :
    releaseEvents cs.reverse = (releaseEvents cs).reverse := by
  simp [releaseEvents]

theorem count_releaseDc_releaseEvents (dc : HDC) (cs : List CompatDc) :
    (releaseEvents cs).count (.releaseDc dc) =
      (cs.filter (fun c => c.m_origDc == dc && c.m_compatDc != 0)).length := by
  induction cs with
  | nil => simp [releaseEvents]
  | cons c cs ih =>
    have hcons : releaseEvents (c :: cs) = releaseEvents [c] ++ releaseEvents cs := by
      by_cases hc : c.m_compatDc = 0 <;> simp [releaseEvents, hc]
    rw [hcons, List.count_append, ih]
    by_cases hc : c.m_compatDc = 0
    · simp [releaseEvents, hc]
    · by_cases ho : c.m_origDc = dc
      · simp [releaseEvents, hc, ho, List.filter_cons]; omega
      · simp [releaseEvents, hc, ho, List.filter_cons, List.count_cons]

theorem acquiredCount_getDcEvents (dc : HDC) (cs : List CompatDc) :
    acquiredCount dc (getDcEvents cs) =
      (cs.filter (fun c => c.m_origDc == dc && c.m_compatDc != 0)).length := by
  induction cs with
  | nil => simp [getDcEvents, acquiredCount]
  | cons c cs ih =>
    simp only [acquiredCount, getDcEvents, List.map_cons] at ih ⊢
    by_cases hk : (c.m_origDc == dc && c.m_compatDc != 0) = true
    · rw [List.filter_cons_of_pos (by simpa [Event.isAcquiredDc] using hk)]
      simp only [List.filter_cons, hk, if_true, List.length_cons, ih]
    · rw [List.filter_cons_of_neg (by simpa [Event.isAcquiredDc] using hk)]
      simp only [List.filter_cons, hk, if_false, ih]
      rfl

theorem acquiredCount_append (dc : HDC) (l1 l2 : List Event) :
    acquiredCount dc (l1 ++ l2) = acquiredCount dc l1 + acquiredCount dc l2 := by
  simp [acquiredCount]

theorem takeWhile_append_cons_of_neg (p : Event → Bool) (pre post : List Event) (a : Event)
    (hpre : ∀ e ∈ pre, p e = true) (ha : p a = false) :
    (pre ++ a :: post).takeWhile p = pre := by
  induction pre with
  | nil => simp [List.takeWhile_cons, ha]
  | cons b bs ih =>
    have hb : p b = true := hpre b (by simp)
    simp only [List.cons_append, List.takeWhile_cons, hb, if_true]
    rw [ih (fun e he => hpre e (by simp [he]))]

theorem filter_frame (f : FuncSym) (p : Event → Bool) (pre : List Event) (a : Access)
    (c0 : CompatDc) (cs : List CompatDc) (args : List Arg) (res : Int) (mid : List Event)
    (hpre : ∀ e ∈ pre, e.isNeutral f = true) (hmid : ∀ e ∈ mid, e.isNeutral f = true)
    (hn : ∀ e, e.isNeutral f = true → p e = false)
    (hg : ∀ o r, p (.getDc o r) = false) (hr : ∀ o, p (.releaseDc o) = false) :
    (pre ++ frameEvents f a c0 cs args res mid).filter p =
      [Event.enterCriticalSection, .acquireGuard a, .callOrig f args res, .releaseGuard,
        .leaveCriticalSection].filter p := by
  have h1 := filter_neutral f p hn pre hpre
  have h2 := filter_neutral f p hn mid hmid
  have h3 := filter_getDcEvents p hg cs
  have h4 := filter_releaseEvents p hr cs.reverse
  have h5 := filter_releaseEvents p hr [c0]
  have h6 : [Event.getDc c0.m_origDc c0.m_compatDc].filter p = [] := by
    simp [hg]
  have hsplit : pre ++ frameEvents f a c0 cs args res mid =
      pre ++ ([Event.enterCriticalSection, .acquireGuard a] ++
        ([Event.getDc c0.m_origDc c0.m_compatDc] ++ (getDcEvents cs ++
        ([Event.callOrig f args res] ++ (releaseEvents cs.reverse ++ (mid ++
        (releaseEvents [c0] ++ [Event.releaseGuard, .leaveCriticalSection]))))))) := by
    simp [frameEvents]
  have hshort : [Event.enterCriticalSection, .acquireGuard a, .callOrig f args res,
      .releaseGuard, .leaveCriticalSection] =
      [Event.enterCriticalSection, .acquireGuard a] ++ ([Event.callOrig f args res] ++
        [Event.releaseGuard, .leaveCriticalSection]) := rfl
  rw [hsplit, hshort]
  simp only [List.filter_append, h1, h2, h3, h4, h5, h6, List.nil_append, List.append_nil]

theorem neutral_ne (f : FuncSym) (a : Event) (ha : a.isNeutral f = false) :
    ∀ e, e.isNeutral f = true → (e == a) = false := by
  intro e he
  rw [beq_eq_false_iff_ne]
  intro h
  rw [h, ha] at he
  exact Bool.false_ne_true he

theorem count_frame (f : FuncSym) (x : Event) (pre : List Event) (a : Access)
    (c0 : CompatDc) (cs : List CompatDc) (args : List Arg) (res : Int) (mid : List Event)
    (hpre : ∀ e ∈ pre, e.isNeutral f = true) (hmid : ∀ e ∈ mid, e.isNeutral f = true)
    (hx : x = .enterCriticalSection ∨ x = .releaseGuard ∨ x = .leaveCriticalSection) :
    (pre ++ frameEvents f a c0 cs args res mid).count x = 1 := by
  rw [count_eq_length_filter]
  rcases hx with rfl | rfl | rfl
  · rw [filter_frame f (fun e => e == Event.enterCriticalSection) pre a c0 cs args res mid
      hpre hmid (neutral_ne f .enterCriticalSection rfl) (by simp) (by simp)]
    simp [List.filter_cons]
  · rw [filter_frame f (fun e => e == Event.releaseGuard) pre a c0 cs args res mid
      hpre hmid (neutral_ne f .releaseGuard rfl) (by simp) (by simp)]
    simp [List.filter_cons]
  · rw [filter_frame f (fun e => e == Event.leaveCriticalSection) pre a c0 cs args res mid
      hpre hmid (neutral_ne f .leaveCriticalSection rfl) (by simp) (by simp)]
    simp [List.filter_cons]

theorem filter_acquireGuard_frame (f : FuncSym) (pre : List Event) (a : Access)
    (c0 : CompatDc) (cs : List CompatDc) (args : List Arg) (res : Int) (mid : List Event)
    (hpre : ∀ e ∈ pre, e.isNeutral f = true) (hmid : ∀ e ∈ mid, e.isNeutral f = true) :
    (pre ++ frameEvents f a c0 cs args res mid).filter Event.isAcquireGuard =
      [.acquireGuard a] := by
  rw [filter_frame f _ pre a c0 cs args res mid hpre hmid
    (by intro e he; cases e <;> simp_all [Event.isNeutral, Event.isAcquireGuard])
    (by simp [Event.isAcquireGuard]) (by simp [Event.isAcquireGuard])]
  simp [List.filter_cons, Event.isAcquireGuard]

theorem count_releaseDc_neutral (f : FuncSym) (dc : HDC) (l : List Event)
    (hl : ∀ e ∈ l, e.isNeutral f = true) : l.count (.releaseDc dc) = 0 := by
  apply List.count_eq_zero_of_not_mem
  intro hmem
  have := hl _ hmem
  simp [Event.isNeutral] at this

theorem acquiredCount_neutral (f : FuncSym) (dc : HDC) (l : List Event)
    (hl : ∀ e ∈ l, e.isNeutral f = true) : acquiredCount dc l = 0 := by
  rw [acquiredCount, filter_neutral f _ _ l hl]
  · rfl
  · intro e he
    cases e <;> simp_all [Event.isNeutral, Event.isAcquiredDc]

theorem count_releaseDc_getDcEvents (dc : HDC) (cs : List CompatDc) :
    (getDcEvents cs).count (.releaseDc dc) = 0 := by
  apply List.count_eq_zero_of_not_mem
  intro hmem
  obtain ⟨o, r, h⟩ := mem_getDcEvents hmem
  cases h

theorem acquiredCount_releaseEvents (dc : HDC) (cs : List CompatDc) :
    acquiredCount dc (releaseEvents cs) = 0 := by
  rw [acquiredCount, filter_releaseEvents _ (by simp [Event.isAcquiredDc])]
  rfl

theorem release_count_frame (f : FuncSym) (dc : HDC) (pre : List Event) (a : Access)
    (c0 : CompatDc) (cs : List CompatDc) (args : List Arg) (res : Int) (mid : List Event)
    (hpre : ∀ e ∈ pre, e.isNeutral f = true) (hmid : ∀ e ∈ mid, e.isNeutral f = true) :
    (pre ++ frameEvents f a c0 cs args res mid).count (.releaseDc dc) =
      acquiredCount dc (pre ++ frameEvents f a c0 cs args res mid) := by
  have hsplit : pre ++ frameEvents f a c0 cs args res mid =
      pre ++ ([Event.enterCriticalSection, .acquireGuard a] ++
        (getDcEvents [c0] ++ (getDcEvents cs ++
        ([Event.callOrig f args res] ++ (releaseEvents cs.reverse ++ (mid ++
        (releaseEvents [c0] ++ [Event.releaseGuard, .leaveCriticalSection]))))))) := by
    simp [frameEvents, getDcEvents]
  have hrev : (releaseEvents cs.reverse).count (.releaseDc dc) =
      (releaseEvents cs).count (.releaseDc dc) := by
    rw [releaseEvents_reverse, List.count_reverse]
  have e1 : [Event.enterCriticalSection, .acquireGuard a].count (.releaseDc dc) = 0 := by
    simp [List.count_cons]
  have e2 : [Event.callOrig f args res].count (.releaseDc dc) = 0 := by
    simp [List.count_cons]
  have e3 : [Event.releaseGuard, .leaveCriticalSection].count (.releaseDc dc) = 0 := by
    simp [List.count_cons]
  have a1 : acquiredCount dc [Event.enterCriticalSection, .acquireGuard a] = 0 := by
    simp [acquiredCount, Event.isAcquiredDc]
  have a2 : acquiredCount dc [Event.callOrig f args res] = 0 := by
    simp [acquiredCount, Event.isAcquiredDc]
  have a3 : acquiredCount dc [Event.releaseGuard, .leaveCriticalSection] = 0 := by
    simp [acquiredCount, Event.isAcquiredDc]
  rw [hsplit]
  simp only [List.count_append, acquiredCount_append, count_releaseDc_neutral f dc pre hpre,
    count_releaseDc_neutral f dc mid hmid, acquiredCount_neutral f dc pre hpre,
    acquiredCount_neutral f dc mid hmid, count_releaseDc_getDcEvents,
    acquiredCount_releaseEvents, hrev, e1, e2, e3, a1, a2, a3,
    count_releaseDc_releaseEvents, acquiredCount_getDcEvents]
  omega

theorem releasesAfterOrig_frame (f : FuncSym) (pre : List Event) (a : Access)
    (c0 : CompatDc) (cs : List CompatDc) (args : List Arg) (res : Int) (mid : List Event)
    (hpre : ∀ e ∈ pre, e.isNeutral f = true) :
    releasesAfterOrig f (pre ++ frameEvents f a c0 cs args res mid) = true := by
  have hsplit : pre ++ frameEvents f a c0 cs args res mid =
      (pre ++ ([Event.enterCriticalSection, .acquireGuard a] ++ getDcEvents (c0 :: cs))) ++
        Event.callOrig f args res :: (releaseEvents cs.reverse ++ (mid ++
        (releaseEvents [c0] ++ [Event.releaseGuard, .leaveCriticalSection]))) := by
    simp [frameEvents, getDcEvents]
  have hkind : ∀ e ∈ pre ++ ([Event.enterCriticalSection, .acquireGuard a] ++
      getDcEvents (c0 :: cs)),
      (!e.isCallOrigOf f) = true ∧ (!e.isRelease) = true := by
    intro e he
    rcases List.mem_append.mp he with h1 | h1
    · have := hpre e h1
      cases e <;> simp_all [Event.isNeutral, Event.isCallOrigOf, Event.isRelease]
    · rcases List.mem_append.mp h1 with h2 | h2
      · simp at h2
        rcases h2 with rfl | rfl <;> simp [Event.isCallOrigOf, Event.isRelease]
      · obtain ⟨o, r, rfl⟩ := mem_getDcEvents h2
        simp [Event.isCallOrigOf, Event.isRelease]
  rw [releasesAfterOrig, hsplit,
    takeWhile_append_cons_of_neg _ _ _ _ (fun e he => (hkind e he).1)
      (by simp [Event.isCallOrigOf])]
  rw [List.all_eq_true]
  exact fun e he => (hkind e he).2

theorem balanced_frame (f : FuncSym) (pre : List Event) (a : Access)
    (c0 : CompatDc) (cs : List CompatDc) (args : List Arg) (res : Int) (mid : List Event)
    (hpre : ∀ e ∈ pre, e.isNeutral f = true) (hmid : ∀ e ∈ mid, e.isNeutral f = true) :
    Balanced f (pre ++ frameEvents f a c0 cs args res mid) := by
  refine ⟨fun dc => release_count_frame f dc pre a c0 cs args res mid hpre hmid, ?_, ?_,
    releasesAfterOrig_frame f pre a c0 cs args res mid hpre⟩
  · rw [count_frame f _ pre a c0 cs args res mid hpre hmid (Or.inr (Or.inl rfl)),
      filter_acquireGuard_frame f pre a c0 cs args res mid hpre hmid]
    rfl
  · rw [count_frame f _ pre a c0 cs args res mid hpre hmid (Or.inr (Or.inr rfl)),
      count_frame f _ pre a c0 cs args res mid hpre hmid (Or.inl rfl)]

/-- The effects of a display-bound call through the primary template, in order. -/
theorem compatGdiDcFunc_display_trace (env : Env) (origFunc : FuncSym) (hdc : HDC)
    (params : List Arg) (s : State)
    (h : hasDisplayDcArg env (.hdc hdc :: params) = true) :
    ∃ (c0 : CompatDc) (cs : List CompatDc) (args : List Arg) (pos : POINT),
      c0.m_origDc = hdc ∧
      newEvents s (compatGdiDcFunc env origFunc hdc params s).2 =
        [.enterCriticalSection,
         .acquireGuard (if isReadOnly origFunc then .ACCESS_READ else .ACCESS_WRITE),
         .getDc hdc c0.m_compatDc] ++ getDcEvents cs ++
        [.callOrig origFunc (.hdc c0.toHDC :: args)
          (compatGdiDcFunc env origFunc hdc params s).1] ++
        releaseEvents cs.reverse ++
        (if isPositionUpdated origFunc && (compatGdiDcFunc env origFunc hdc params s).1 != 0
          then [.getCurrentPositionEx c0.toHDC pos, .moveToEx hdc pos.x pos.y] else []) ++
        releaseEvents [c0] ++ [.releaseGuard, .leaveCriticalSection] := by
  obtain ⟨a, ha⟩ : ∃ a, a =
      (if isReadOnly origFunc then Access.ACCESS_READ else Access.ACCESS_WRITE) := ⟨_, rfl⟩
  obtain ⟨s2, hs2⟩ : ∃ s2, s2 =
      (s.emit .enterCriticalSection).emit (.acquireGuard a) := ⟨_, rfl⟩
  obtain ⟨c0, hc0⟩ : ∃ c0, c0 = CompatDc.ctor env hdc s2 := ⟨_, rfl⟩
  obtain ⟨r, hr⟩ : ∃ r, r = replaceDcParams env params c0.2 := ⟨_, rfl⟩
  obtain ⟨res, hres⟩ : ∃ res, res =
      env.origFunc r.2.2 origFunc (.hdc c0.1.toHDC :: r.1) := ⟨_, rfl⟩
  obtain ⟨s6, hs6⟩ : ∃ s6, s6 = destroyAll r.2.1.reverse
      (r.2.2.emit (.callOrig origFunc (.hdc c0.1.toHDC :: r.1) res)) := ⟨_, rfl⟩
  obtain ⟨pos, hpos⟩ : ∃ pos, pos = env.getCurrentPositionEx s6 c0.1.toHDC := ⟨_, rfl⟩
  have hout : compatGdiDcFunc env origFunc hdc params s =
      (res, ((c0.1.dtor
        (if isPositionUpdated origFunc && res != 0 then
          (s6.emit (.getCurrentPositionEx c0.1.toHDC pos)).emit
            (.moveToEx hdc pos.x pos.y)
         else s6)).emit .releaseGuard).emit .leaveCriticalSection) := by
    rw [compatGdiDcFunc, if_pos h, hpos, hs6, hres, hr, hc0, hs2, ha]
  have hc0a : c0.1.m_origDc = hdc := by rw [hc0]; rfl
  have hc0b : c0.2.trace = s.trace ++
      [.enterCriticalSection, .acquireGuard a, .getDc hdc c0.1.m_compatDc] := by
    rw [hc0, hs2]; simp [CompatDc.ctor]
  have htr : r.2.2.trace = c0.2.trace ++ getDcEvents r.2.1 := by
    rw [hr]; exact replaceDcParams_trace env params c0.2
  have ht6 : s6.trace = r.2.2.trace ++
      [.callOrig origFunc (.hdc c0.1.toHDC :: r.1) res] ++ releaseEvents r.2.1.reverse := by
    rw [hs6, destroyAll_trace]; simp
  refine ⟨c0.1, r.2.1, r.1, pos, hc0a, ?_⟩
  rw [hout, ← ha]
  apply newEvents_of_append
  by_cases hp : (isPositionUpdated origFunc && res != 0) = true
  · simp only [hp, if_true, emit_trace, dtor_trace, ht6, htr, hc0b]
    simp
  · rw [if_neg hp, if_neg hp]
    simp only [emit_trace, dtor_trace, ht6, htr, hc0b]
    simp

theorem balanced_neutral (f : FuncSym) (l : List Event)
    (hl : ∀ e ∈ l, e.isNeutral f = true) : Balanced f l := by
  refine ⟨fun dc => ?_, ?_, ?_, ?_⟩
  · rw [count_releaseDc_neutral f dc l hl, acquiredCount_neutral f dc l hl]
  · rw [count_eq_length_filter, filter_neutral f _ (neutral_ne f .releaseGuard rfl) l hl,
      filter_neutral f _ _ l hl]
    intro e he
    cases e <;> simp_all [Event.isNeutral, Event.isAcquireGuard]
  · rw [count_eq_length_filter, count_eq_length_filter,
      filter_neutral f _ (neutral_ne f .leaveCriticalSection rfl) l hl,
      filter_neutral f _ (neutral_ne f .enterCriticalSection rfl) l hl]
  · rw [releasesAfterOrig, List.all_eq_true]
    intro e he
    have := hl e (List.takeWhile_subset _ he)
    cases e <;> simp_all [Event.isNeutral, Event.isRelease]

theorem balanced_single_call (f : FuncSym) (args : List Arg) (res : Int) :
    Balanced f [.callOrig f args res] := by
  refine ⟨fun dc => ?_, ?_, ?_, ?_⟩
  · simp [acquiredCount, Event.isAcquiredDc, List.count_cons]
  · simp [Event.isAcquireGuard, List.count_cons]
  · simp [List.count_cons]
  · simp [releasesAfterOrig, Event.isCallOrigOf]

/-- The effects of the guarded block of the `ExtTextOutW` specialisation. -/
theorem extTextOutW_guarded_trace (env : Env) (hdc : HDC)
    (x y options lprect lpString c lpDx : Int) (s : State) :
    ∃ (c0 : CompatDc) (pos : POINT),
      c0.m_origDc = hdc ∧
      (extTextOutW_guarded env hdc x y options lprect lpString c lpDx s).2.trace =
        s.trace ++ frameEvents .ExtTextOutW .ACCESS_WRITE c0 []
          (extTextOutArgs c0.toHDC x y options lprect lpString c lpDx)
          (extTextOutW_guarded env hdc x y options lprect lpString c lpDx s).1
          (if (extTextOutW_guarded env hdc x y options lprect lpString c lpDx s).1 != 0
            then [.getCurrentPositionEx c0.toHDC pos, .moveToEx hdc pos.x pos.y] else []) := by
  obtain ⟨s2, hs2⟩ : ∃ s2, s2 =
      (s.emit .enterCriticalSection).emit (.acquireGuard .ACCESS_WRITE) := ⟨_, rfl⟩
  obtain ⟨c0, hc0⟩ : ∃ c0, c0 = CompatDc.ctor env hdc s2 := ⟨_, rfl⟩
  obtain ⟨res, hres⟩ : ∃ res, res = env.origFunc c0.2 .ExtTextOutW
      (extTextOutArgs c0.1.toHDC x y options lprect lpString c lpDx) := ⟨_, rfl⟩
  obtain ⟨s4, hs4⟩ : ∃ s4, s4 = c0.2.emit (.callOrig .ExtTextOutW
      (extTextOutArgs c0.1.toHDC x y options lprect lpString c lpDx) res) := ⟨_, rfl⟩
  obtain ⟨pos, hpos⟩ : ∃ pos, pos = env.getCurrentPositionEx s4 c0.1.toHDC := ⟨_, rfl⟩
  have hout : extTextOutW_guarded env hdc x y options lprect lpString c lpDx s =
      (res, ((c0.1.dtor
        (if res != 0 then
          (s4.emit (.getCurrentPositionEx c0.1.toHDC pos)).emit (.moveToEx hdc pos.x pos.y)
         else s4)).emit .releaseGuard).emit .leaveCriticalSection) := by
    rw [extTextOutW_guarded, hpos, hs4, hres, hc0, hs2]
  have hc0a : c0.1.m_origDc = hdc := by rw [hc0]; rfl
  have hc0b : c0.2.trace = s.trace ++
      [.enterCriticalSection, .acquireGuard .ACCESS_WRITE,
       .getDc c0.1.m_origDc c0.1.m_compatDc] := by
    rw [hc0, hs2]; simp [CompatDc.ctor]
  refine ⟨c0.1, pos, hc0a, ?_⟩
  rw [hout]
  by_cases hp : (res != 0) = true
  · rw [if_pos hp, if_pos hp]
    simp only [emit_trace, dtor_trace, hs4, hc0b, frameEvents, getDcEvents, List.map_nil,
      List.reverse_nil]
    simp [releaseEvents]
  · rw [if_neg hp, if_neg hp]
    simp only [emit_trace, dtor_trace, hs4, hc0b, frameEvents, getDcEvents, List.map_nil,
      List.reverse_nil]
    simp [releaseEvents]

theorem neutral_repair (f : FuncSym) (b : Bool) (dc hdc : HDC) (pos : POINT) :
    ∀ e ∈ (if b = true then
        [Event.getCurrentPositionEx dc pos, Event.moveToEx hdc pos.x pos.y] else []),
      e.isNeutral f = true := by
  intro e he
  cases b
  · simp at he
  · simp at he
    rcases he with rfl | rfl <;> rfl

theorem extTextOutW_guarded_balanced (env : Env) (hdc : HDC)
    (x y options lprect lpString c lpDx : Int) (s t : State) (pre : List Event)
    (ht : t.trace = s.trace ++ pre) (hpre : ∀ e ∈ pre, e.isNeutral .ExtTextOutW = true) :
    Balanced .ExtTextOutW
      (newEvents s (extTextOutW_guarded env hdc x y options lprect lpString c lpDx t).2) := by
  obtain ⟨c0, pos, _, htr⟩ :=
    extTextOutW_guarded_trace env hdc x y options lprect lpString c lpDx t
  rw [newEvents_of_append s _ _ (by rw [htr, ht, List.append_assoc])]
  exact balanced_frame _ pre _ c0 [] _ _ _ hpre (neutral_repair _ _ _ _ _)

theorem extTextOutW_balanced (env : Env) (hdc : HDC)
    (x y options lprect lpString c lpDx : Int) (s : State) :
    Balanced .ExtTextOutW
      (newEvents s
        (compatGdiDcFunc_ExtTextOutW env hdc x y options lprect lpString c lpDx s).2) := by
  by_cases hd : hasDisplayDcArg env [.hdc hdc] = true
  · rw [compatGdiDcFunc_ExtTextOutW, if_pos hd]
    by_cases hm : env.MENU_ATOM =
        env.getClassLong (env.origFunc s .WindowFromDC [.hdc hdc]) GCW_ATOM % 65536
    · simp only [if_pos hm]
      rw [newEvents_of_append s _ _ (by simp only [emit_trace, List.append_assoc]; rfl)]
      apply balanced_neutral
      intro e he
      simp at he
      rcases he with rfl | rfl <;> rfl
    · simp only [if_neg hm]
      by_cases hth : env.getCurrentThreadId =
          env.getWindowThreadProcessId (env.origFunc s .WindowFromDC [.hdc hdc])
      · simp only [if_pos hth, lpToScreen, if_true]
        split
        · rw [newEvents_of_append s _ _ (by simp only [emit_trace, List.append_assoc]; rfl)]
          apply balanced_neutral
          intro e he
          simp at he
          rcases he with rfl | rfl | rfl <;> rfl
        · apply extTextOutW_guarded_balanced env hdc x y options lprect lpString c lpDx s _
            _ (by simp only [emit_trace, List.append_assoc]; rfl)
          intro e he
          simp at he
          rcases he with rfl | rfl <;> rfl
      · simp only [if_neg hth]
        apply extTextOutW_guarded_balanced env hdc x y options lprect lpString c lpDx s _
          _ (by simp only [emit_trace]; rfl)
        intro e he
        simp at he
        rcases he with rfl
        rfl
  · rw [compatGdiDcFunc_ExtTextOutW, if_neg hd]
    rw [newEvents_of_append s _ _ (by simp only [emit_trace]; rfl)]
    exact balanced_single_call _ _ _

/-- The guarded block of the `ExtTextOutW` specialisation, effect by effect: `r` is what
`getDc` handed back and the original is called on `r`, or on `hdc` when `r` is null. -/
theorem extTextOutW_guarded_events (env : Env) (hdc : HDC)
    (x y options lprect lpString c lpDx : Int) (t : State) :
    ∃ (r : HDC) (pos : POINT),
      (extTextOutW_guarded env hdc x y options lprect lpString c lpDx t).2.trace =
        t.trace ++
          ([.enterCriticalSection, .acquireGuard .ACCESS_WRITE, .getDc hdc r,
            .callOrig .ExtTextOutW
              (extTextOutArgs (if r ≠ 0 then r else hdc) x y options lprect lpString c lpDx)
              (extTextOutW_guarded env hdc x y options lprect lpString c lpDx t).1] ++
           (if (extTextOutW_guarded env hdc x y options lprect lpString c lpDx t).1 ≠ 0
             then [.getCurrentPositionEx (if r ≠ 0 then r else hdc) pos,
                   .moveToEx hdc pos.x pos.y] else []) ++
           (if r ≠ 0 then [.releaseDc hdc] else []) ++
           [.releaseGuard, .leaveCriticalSection]) := by
  obtain ⟨c0, pos, h0, htr⟩ :=
    extTextOutW_guarded_trace env hdc x y options lprect lpString c lpDx t
  obtain ⟨o, r⟩ := c0
  simp only at h0
  subst h0
  refine ⟨r, pos, ?_⟩
  rw [htr]
  by_cases hr : r = 0 <;>
    by_cases hres : (extTextOutW_guarded env o x y options lprect lpString c lpDx t).1 = 0 <;>
    simp [frameEvents, getDcEvents, releaseEvents, CompatDc.toHDC, hr, hres]

/-- A display-bound call through the primary template is one guarded substitution. -/
theorem compatGdiDcFunc_display_frame (env : Env) (origFunc : FuncSym) (hdc : HDC)
    (params : List Arg) (s : State)
    (h : hasDisplayDcArg env (.hdc hdc :: params) = true) :
    ∃ (c0 : CompatDc) (cs : List CompatDc) (args : List Arg) (pos : POINT),
      c0.m_origDc = hdc ∧
      newEvents s (compatGdiDcFunc env origFunc hdc params s).2 =
        frameEvents origFunc
          (if isReadOnly origFunc then .ACCESS_READ else .ACCESS_WRITE) c0 cs
          (.hdc c0.toHDC :: args) (compatGdiDcFunc env origFunc hdc params s).1
          (if isPositionUpdated origFunc && (compatGdiDcFunc env origFunc hdc params s).1 != 0
            then [.getCurrentPositionEx c0.toHDC pos, .moveToEx hdc pos.x pos.y] else []) := by
  obtain ⟨c0, cs, args, pos, h0, hev⟩ :=
    compatGdiDcFunc_display_trace env origFunc hdc params s h
  exact ⟨c0, cs, args, pos, h0, by rw [hev, frameEvents, h0]⟩

theorem isReadOnly_iff (f : FuncSym) :
    isReadOnly f = true ↔ (f = .GetDIBits ∨ f = .GetPixel) := by
  cases f <;> simp [isReadOnly]

/-! ## C1 — pass-through -/

/-- C1. When no `HDC`-typed argument denotes the display, the generic dispatcher (and
likewise the `ExtTextOutW` specialisation) returns the result of the original function
called on the caller's arguments, and its only effect is that single call: no critical
section, no guard, no substitute DC, no position repair. -/
theorem compatGdiDcFunc_passthrough (env : Env) (origFunc : FuncSym) (hdc : HDC)
    (params : List Arg) (s : State)
    (h : ∀ dc, Arg.hdc dc ∈ (Arg.hdc hdc :: params) → env.isDisplayDc dc = false) :
    compatGdiDcFunc env origFunc hdc params s =
        (env.origFunc s origFunc (.hdc hdc :: params),
         s.emit (.callOrig origFunc (.hdc hdc :: params)
           (env.origFunc s origFunc (.hdc hdc :: params)))) ∧
    ∀ x y options lprect lpString c lpDx : Int,
      compatGdiDcFunc_ExtTextOutW env hdc x y options lprect lpString c lpDx s =
        (env.origFunc s .ExtTextOutW
           (extTextOutArgs hdc x y options lprect lpString c lpDx),
         s.emit (.callOrig .ExtTextOutW
           (extTextOutArgs hdc x y options lprect lpString c lpDx)
           (env.origFunc s .ExtTextOutW
             (extTextOutArgs hdc x y options lprect lpString c lpDx)))) := by
  have hf := (hasDisplayDcArg_eq_false_iff env (Arg.hdc hdc :: params)).mpr h
  have h1 : env.isDisplayDc hdc = false := h hdc (by simp)
  constructor
  · simp [compatGdiDcFunc, hf]
  · intro x y options lprect lpString c lpDx
    simp [compatGdiDcFunc_ExtTextOutW, hasDisplayDcArg, hasDisplayDcArg1, h1]

/-- C1 at a `BitBlt` between two memory DCs. -/
theorem compatGdiDcFunc_passthrough_witness :
    (∀ dc, Arg.hdc dc ∈ [Arg.hdc 2, .val 5, .hdc 4] → sampleEnv.isDisplayDc dc = false) ∧
    (compatGdiDcFunc sampleEnv .BitBlt 2 [.val 5, .hdc 4] State.initial =
        (1, State.initial.emit (.callOrig .BitBlt [.hdc 2, .val 5, .hdc 4] 1))) :=
  ⟨by simp [sampleEnv],
   (compatGdiDcFunc_passthrough sampleEnv .BitBlt 2 [.val 5, .hdc 4] State.initial
      (by simp [sampleEnv])).1⟩

/-! ## C2 — position repair -/

/-- C3. A display-bound call through the generic dispatcher acquires the access guard
exactly once, with `ACCESS_READ` when the operation is `GetDIBits` or `GetPixel` — the
operations the code marks read-only — and with `ACCESS_WRITE` for any other; a read-only
operation never acquires it with `ACCESS_WRITE`. -/
theorem guard_intent (env : Env) (origFunc : FuncSym) (hdc : HDC)
    (params : List Arg) (s : State)
    (h : hasDisplayDcArg env (.hdc hdc :: params) = true) :
    let ev := newEvents s (compatGdiDcFunc env origFunc hdc params s).2
    (isReadOnly origFunc = true ↔ (origFunc = .GetDIBits ∨ origFunc = .GetPixel)) ∧
    ev.filter Event.isAcquireGuard =
      [.acquireGuard (if origFunc = .GetDIBits ∨ origFunc = .GetPixel
        then .ACCESS_READ else .ACCESS_WRITE)] ∧
    ((origFunc = .GetDIBits ∨ origFunc = .GetPixel) →
      Event.acquireGuard .ACCESS_WRITE ∉ ev) := by
  intro ev
  obtain ⟨c0, cs, args, pos, h0, hev⟩ :=
    compatGdiDcFunc_display_frame env origFunc hdc params s h
  have hfil : ev.filter Event.isAcquireGuard =
      [.acquireGuard (if isReadOnly origFunc then .ACCESS_READ else .ACCESS_WRITE)] := by
    have := filter_acquireGuard_frame origFunc []
      (if isReadOnly origFunc then .ACCESS_READ else .ACCESS_WRITE) c0 cs
      (.hdc c0.toHDC :: args) (compatGdiDcFunc env origFunc hdc params s).1 _
      (by simp) (neutral_repair origFunc
        (isPositionUpdated origFunc && (compatGdiDcFunc env origFunc hdc params s).1 != 0)
        c0.toHDC hdc pos)
    rw [List.nil_append, ← hev] at this
    exact this
  have hif : (if isReadOnly origFunc then Access.ACCESS_READ else Access.ACCESS_WRITE) =
      (if origFunc = .GetDIBits ∨ origFunc = .GetPixel
        then Access.ACCESS_READ else Access.ACCESS_WRITE) := by
    by_cases hr : origFunc = .GetDIBits ∨ origFunc = .GetPixel
    · rw [if_pos hr, if_pos ((isReadOnly_iff origFunc).mpr hr)]
    · rw [if_neg hr, if_neg (fun hc => hr ((isReadOnly_iff origFunc).mp hc))]
  refine ⟨isReadOnly_iff origFunc, by rw [hfil, hif], ?_⟩
  intro hr hmem
  have hin : Event.acquireGuard .ACCESS_WRITE ∈ ev.filter Event.isAcquireGuard :=
    List.mem_filter.mpr ⟨hmem, rfl⟩
  rw [hfil, if_pos ((isReadOnly_iff origFunc).mpr hr)] at hin
  simp at hin

/-- C3 at `GetPixel` on the display: the guard is taken once, for reading. -/
theorem guard_intent_witness :
    hasDisplayDcArg sampleEnv [.hdc 1, .val 5, .val 6] = true ∧
    (newEvents State.initial
      (compatGdiDcFunc sampleEnv .GetPixel 1 [.val 5, .val 6] State.initial).2).filter
        Event.isAcquireGuard = [.acquireGuard .ACCESS_READ] :=
  ⟨by decide,
   (guard_intent sampleEnv .GetPixel 1 [.val 5, .val 6] State.initial (by decide)).2.1⟩

/-! ## C4 — every acquisition is released once -/

/-- C8. For `GCL_HICON` and `GCL_HICONSM` the flag is switched off, the original
`SetClassLong` is called once while it is off, the flag is switched on again and the
original result is returned; for any other index the only effect is the original call
and the flag keeps its value. An enabled flag is therefore enabled after the call. -/
theorem setClassLong_flag_discipline (env : Env) (hWnd : HWND) (nIndex dwNewLong : Int)
    (origSetClassLong : FuncSym) (s : State) :
    let out := setClassLong env hWnd nIndex dwNewLong origSetClassLong s
    let args : List Arg := [.val hWnd, .val nIndex, .val dwNewLong]
    (nIndex = GCL_HICON ∨ nIndex = GCL_HICONSM →
        (s.setRedirect false).redirectToDib = false ∧
        out.1 = env.origFunc (s.setRedirect false) origSetClassLong args ∧
        out.2.trace = s.trace ++
          [.setRedirectToDib false, .callOrig origSetClassLong args out.1,
           .setRedirectToDib true] ∧
        out.2.redirectToDib = true) ∧
    (¬ (nIndex = GCL_HICON ∨ nIndex = GCL_HICONSM) →
        out.1 = env.origFunc s origSetClassLong args ∧
        out.2 = s.emit (.callOrig origSetClassLong args out.1) ∧
        out.2.redirectToDib = s.redirectToDib) ∧
    (s.redirectToDib = true → out.2.redirectToDib = true) := by
  intro out args
  by_cases hIdx : GCL_HICON = nIndex ∨ GCL_HICONSM = nIndex
  · have hIdx2 : nIndex = GCL_HICON ∨ nIndex = GCL_HICONSM := by
      rcases hIdx with h | h
      · exact Or.inl h.symm
      · exact Or.inr h.symm
    have hout : out = ((env.origFunc (s.setRedirect false) origSetClassLong args),
        ((s.setRedirect false).emit (.callOrig origSetClassLong args
          (env.origFunc (s.setRedirect false) origSetClassLong args))).setRedirect true) := by
      simp only [out, setClassLong, if_pos hIdx, args]
    refine ⟨fun _ => ?_, fun hn => absurd hIdx2 hn, fun _ => ?_⟩
    · rw [hout]; simp
    · rw [hout]; simp
  · have hIdx2 : ¬ (nIndex = GCL_HICON ∨ nIndex = GCL_HICONSM) := by
      intro h
      apply hIdx
      rcases h with h | h
      · exact Or.inl h.symm
      · exact Or.inr h.symm
    have hout : out = ((env.origFunc s origSetClassLong args),
        s.emit (.callOrig origSetClassLong args
          (env.origFunc s origSetClassLong args))) := by
      simp only [out, setClassLong, if_neg hIdx, args]
    refine ⟨fun h => absurd h hIdx2, fun _ => ?_, fun hs => ?_⟩
    · rw [hout]; simp
    · rw [hout]; simpa using hs

/-- C8 at `setClassLongA(7, GCL_HICON, 5)` from the initial state. -/
theorem setClassLong_flag_discipline_witness :
    (GCL_HICON = GCL_HICON ∨ GCL_HICON = GCL_HICONSM) ∧
    (setClassLong sampleEnv 7 GCL_HICON 5 .SetClassLongA State.initial).2.trace =
      [.setRedirectToDib false,
       .callOrig .SetClassLongA [.val 7, .val GCL_HICON, .val 5] 1,
       .setRedirectToDib true] ∧
    (setClassLong sampleEnv 7 GCL_HICON 5 .SetClassLongA State.initial).2.redirectToDib
      = true :=
  ⟨Or.inl rfl,
   ((setClassLong_flag_discipline sampleEnv 7 GCL_HICON 5 .SetClassLongA State.initial).1
      (Or.inl rfl)).2.2.1,
   ((setClassLong_flag_discipline sampleEnv 7 GCL_HICON 5 .SetClassLongA State.initial).1
      (Or.inl rfl)).2.2.2⟩

/-! ## C9 — fallback of `registerClassEx` -/

/-- C9. For a record with an icon handle, when the icon-stripped class registers
(non-zero atom) and `CreateWindow` fails, `registerClassEx` unregisters that class and
returns what the original registration answers on the caller's own record, the only
effects being the stripped registration, the failed window creation, the
unregistration and the final registration. For a null record, and for a record with
both icon handles null, the only effect is the original registration on the caller's
record, whose result is returned. -/
theorem registerClassEx_fallback (env : Env)
    (origRegisterClassEx origSetClassLong : FuncSym) (origDefWindowProc : Int) (s : State) :
    (∀ cls : WndClassEx, (cls.hIcon ≠ 0 ∨ cls.hIconSm ≠ 0) →
      let wc : WndClassEx :=
        { cls with lpfnWndProc := origDefWindowProc, hIcon := 0, hIconSm := 0 }
      let atom := env.origFunc s origRegisterClassEx [.wndClassEx (some wc)]
      let s1 := s.emit (.callOrig origRegisterClassEx [.wndClassEx (some wc)] atom)
      let s3 := (s1.emit (.createWindow atom 0)).emit
        (.unregisterClass atom env.getModuleHandle)
      atom ≠ 0 → env.createWindow s1 atom = 0 →
      registerClassEx env (some cls) origRegisterClassEx origSetClassLong
          origDefWindowProc s =
        (env.origFunc s3 origRegisterClassEx [.wndClassEx (some cls)],
         s3.emit (.callOrig origRegisterClassEx [.wndClassEx (some cls)]
           (env.origFunc s3 origRegisterClassEx [.wndClassEx (some cls)])))) ∧
    registerClassEx env none origRegisterClassEx origSetClassLong origDefWindowProc s =
      (env.origFunc s origRegisterClassEx [.wndClassEx none],
       s.emit (.callOrig origRegisterClassEx [.wndClassEx none]
         (env.origFunc s origRegisterClassEx [.wndClassEx none]))) ∧
    (∀ cls : WndClassEx, cls.hIcon = 0 → cls.hIconSm = 0 →
      registerClassEx env (some cls) origRegisterClassEx origSetClassLong
          origDefWindowProc s =
        (env.origFunc s origRegisterClassEx [.wndClassEx (some cls)],
         s.emit (.callOrig origRegisterClassEx [.wndClassEx (some cls)]
           (env.origFunc s origRegisterClassEx [.wndClassEx (some cls)])))) := by
  refine ⟨?_, ?_, ?_⟩
  · intro cls hIcon wc atom s1 s3 hAtom hWnd
    have hNot : ¬ (cls.hIcon = 0 ∧ cls.hIconSm = 0) := by
      intro h
      rcases hIcon with h1 | h1
      · exact h1 h.1
      · exact h1 h.2
    simp only [registerClassEx, if_neg hNot]
    rw [if_pos hAtom, hWnd]
    simp [s3, s1, atom, wc]
  · simp [registerClassEx]
  · intro cls h1 h2
    simp [registerClassEx, h1, h2]

/-- C9 at a class with a large icon, in a world where window creation fails. -/
theorem registerClassEx_fallback_witness :
    (iconClass.hIcon ≠ 0 ∨ iconClass.hIconSm ≠ 0) ∧
    registerClassEx sampleEnv (some iconClass) .RegisterClassExA .SetClassLongA 4096
        State.initial =
      (1, { redirectToDib := true,
            trace := [
              .callOrig .RegisterClassExA
                [.wndClassEx (some { lpfnWndProc := 4096, hIcon := 0, hIconSm := 0, rest := 9 })]
                1,
              .createWindow 1 0,
              .unregisterClass 1 4194304,
              .callOrig .RegisterClassExA [.wndClassEx (some iconClass)] 1] }) :=
  ⟨Or.inl (by decide),
   (registerClassEx_fallback sampleEnv .RegisterClassExA .SetClassLongA 4096
      State.initial).1 iconClass (Or.inl (by decide)) (by decide) (by decide)⟩

/-! ## C5 — when bitmap creation is redirected -/

/-- C5 as stated fails for `createDIBitmap`: with the flag set and a display `hdc`, a
call whose `fdwInit` carries `CBM_CREATDIB` goes to the original allocator and requests
no off-screen buffer. -/
theorem createDIBitmap_redirect_counterexample :
    State.initial.redirectToDib = true ∧ sampleEnv.isDisplayDc 1 = true ∧
    createDIBitmap sampleEnv 1 (some header10x20) 2 0 (some info30x40) 0 State.initial =
      .ok (1, State.initial.emit (.callOrig .CreateDIBitmap
        [.hdc 1, .bmih (some header10x20), .val 2, .val 0, .bmi (some info30x40), .val 0]
        1)) :=
  ⟨rfl, rfl, rfl⟩

/-- C5 (amended). `createCompatibleBitmap` and `createDiscardableBitmap` request an
off-screen buffer, and do not call the original allocator, exactly when the flag is set
and `hdc` denotes the display. `createDIBitmap` takes the redirect branch exactly when,
in addition, `CBM_CREATDIB` is clear in `fdwInit` and `lpbmih` is non-null: in that
branch, for a non-null `lpbmi`, it requests an off-screen buffer and does not call the
original allocator. Outside the redirect case `createCompatibleBitmap` and
`createDIBitmap` return the result of their own original allocator on the caller's
unmodified arguments, with that call as the only effect. -/
theorem bitmap_redirect_decision (env : Env) (hdc : HDC) (s : State) :
    (∀ cx cy : Int,
      let out := createCompatibleBitmap env hdc cx cy s
      (((newEvents s out.2).any Event.isCreateOffScreenDib = true ∧
          (newEvents s out.2).any (Event.isCallOrigOf .CreateCompatibleBitmap) = false)
        ↔ (s.redirectToDib = true ∧ env.isDisplayDc hdc = true)) ∧
      (¬ (s.redirectToDib = true ∧ env.isDisplayDc hdc = true) →
        out = (env.origFunc s .CreateCompatibleBitmap [.hdc hdc, .val cx, .val cy],
               s.emit (.callOrig .CreateCompatibleBitmap [.hdc hdc, .val cx, .val cy]
                 (env.origFunc s .CreateCompatibleBitmap [.hdc hdc, .val cx, .val cy]))))) ∧
    (∀ nWidth nHeight : Int,
      let out := createDiscardableBitmap env hdc nWidth nHeight s
      (((newEvents s out.2).any Event.isCreateOffScreenDib = true ∧
          (newEvents s out.2).any (Event.isCallOrigOf .CreateDiscardableBitmap) = false)
        ↔ (s.redirectToDib = true ∧ env.isDisplayDc hdc = true))) ∧
    (∀ (lpbmih : Option BITMAPINFOHEADER) (fdwInit : Nat) (lpbInit : Int)
        (lpbmi : Option BITMAPINFO) (fuUsage : Int),
      (¬ (s.redirectToDib = true ∧ fdwInit &&& CBM_CREATDIB = 0 ∧ lpbmih ≠ none ∧
            env.isDisplayDc hdc = true) →
        createDIBitmap env hdc lpbmih fdwInit lpbInit lpbmi fuUsage s =
          .ok (env.origFunc s .CreateDIBitmap
                 (createDIBitmapArgs hdc lpbmih fdwInit lpbInit lpbmi fuUsage),
               s.emit (.callOrig .CreateDIBitmap
                 (createDIBitmapArgs hdc lpbmih fdwInit lpbInit lpbmi fuUsage)
                 (env.origFunc s .CreateDIBitmap
                   (createDIBitmapArgs hdc lpbmih fdwInit lpbInit lpbmi fuUsage))))) ∧
      ((s.redirectToDib = true ∧ fdwInit &&& CBM_CREATDIB = 0 ∧ lpbmih ≠ none ∧
            env.isDisplayDc hdc = true) → lpbmi ≠ none →
        ∃ bitmap t,
          createDIBitmap env hdc lpbmih fdwInit lpbInit lpbmi fuUsage s = .ok (bitmap, t) ∧
          (newEvents s t).any Event.isCreateOffScreenDib = true ∧
          (newEvents s t).any (Event.isCallOrigOf .CreateDIBitmap) = false)) := by
  refine ⟨?_, ?_, ?_⟩
  · intro cx cy
    by_cases hc : s.redirectToDib = true ∧ env.isDisplayDc hdc = true
    · simp [createCompatibleBitmap, hc.1, hc.2, newEvents, Event.isCreateOffScreenDib,
        Event.isCallOrigOf]
    · have hb : (s.redirectToDib && env.isDisplayDc hdc) = false := by
        cases h1 : s.redirectToDib <;> cases h2 : env.isDisplayDc hdc <;> simp_all
      simp [createCompatibleBitmap, hb, hc, newEvents, Event.isCreateOffScreenDib]
  · intro nWidth nHeight
    by_cases hc : s.redirectToDib = true ∧ env.isDisplayDc hdc = true
    · simp [createDiscardableBitmap, hc.1, hc.2, newEvents, Event.isCreateOffScreenDib,
        Event.isCallOrigOf]
    · have hb : (s.redirectToDib && env.isDisplayDc hdc) = false := by
        cases h1 : s.redirectToDib <;> cases h2 : env.isDisplayDc hdc <;> simp_all
      simp [createDiscardableBitmap, hb, hc, newEvents, Event.isCreateOffScreenDib]
  · intro lpbmih fdwInit lpbInit lpbmi fuUsage
    constructor
    · intro hc
      have hb : (s.redirectToDib && (fdwInit &&& CBM_CREATDIB == 0) && lpbmih.isSome
          && env.isDisplayDc hdc) = false := by
        cases h1 : s.redirectToDib <;> cases h2 : env.isDisplayDc hdc <;>
          cases lpbmih <;> by_cases h3 : fdwInit &&& CBM_CREATDIB = 0 <;> simp_all
      simp [createDIBitmap, hb]
    · intro hc hbmi
      obtain ⟨bmi, rfl⟩ := Option.ne_none_iff_exists'.mp hbmi
      obtain ⟨hdr, rfl⟩ := Option.ne_none_iff_exists'.mp hc.2.2.1
      by_cases hset : (env.createOffScreenDib s bmi.bmiHeader.biWidth bmi.bmiHeader.biHeight != 0
          && lpbInit != 0 && (some bmi).isSome) = true
      · refine ⟨env.createOffScreenDib s bmi.bmiHeader.biWidth bmi.bmiHeader.biHeight,
          (s.emit (.createOffScreenDib bmi.bmiHeader.biWidth bmi.bmiHeader.biHeight
            (env.createOffScreenDib s bmi.bmiHeader.biWidth bmi.bmiHeader.biHeight))).emit
            (.setDIBits hdc
              (env.createOffScreenDib s bmi.bmiHeader.biWidth bmi.bmiHeader.biHeight) 0
              |bmi.bmiHeader.biHeight| lpbInit (some bmi) fuUsage), ?_, ?_, ?_⟩
        · simp only [createDIBitmap, hc.1, hc.2.1, hc.2.2.2, Option.isSome_some, beq_self_eq_true,
            Bool.and_self, if_true]
          exact if_pos hset
        · simp [newEvents, Event.isCreateOffScreenDib]
        · simp [newEvents, Event.isCallOrigOf]
      · refine ⟨env.createOffScreenDib s bmi.bmiHeader.biWidth bmi.bmiHeader.biHeight,
          s.emit (.createOffScreenDib bmi.bmiHeader.biWidth bmi.bmiHeader.biHeight
            (env.createOffScreenDib s bmi.bmiHeader.biWidth bmi.bmiHeader.biHeight)),
          ?_, ?_, ?_⟩
        · simp only [createDIBitmap, hc.1, hc.2.1, hc.2.2.2, Option.isSome_some, beq_self_eq_true,
            Bool.and_self, if_true]
          exact if_neg hset
        · simp [newEvents, Event.isCreateOffScreenDib]
        · simp [newEvents, Event.isCallOrigOf]

/-- C5 (amended) at a memory DC: the original `CreateCompatibleBitmap` is called. -/
theorem bitmap_redirect_decision_witness :
    ¬ (State.initial.redirectToDib = true ∧ sampleEnv.isDisplayDc 2 = true) ∧
    createCompatibleBitmap sampleEnv 2 3 4 State.initial =
      (1, State.initial.emit
        (.callOrig .CreateCompatibleBitmap [.hdc 2, .val 3, .val 4] 1)) :=
  ⟨by decide,
   ((bitmap_redirect_decision sampleEnv 2 State.initial).1 3 4).2 (by decide)⟩

/-- Outside the redirect case `createDiscardableBitmap` calls what `getOrigFuncPtr`
holds for the wrapper's own symbol, not for `CreateDiscardableBitmap` (line 246). -/
theorem createDiscardableBitmap_fallthrough_symbol :
    createDiscardableBitmap sampleEnv 2 3 4 State.initial =
      (1, State.initial.emit
        (.callOrig .createDiscardableBitmap [.hdc 2, .val 3, .val 4] 1)) := by
  decide

/-! ## C6, C10 — `createDIBitmap` reads `lpbmi` where it tested `lpbmih` -/

/-- C6 (code defect). With `lpbmih` asking for 10 by 20 and `lpbmi` carrying 30 by 40,
the redirected `createDIBitmap` requests a 30 by 40 buffer. -/
theorem createDIBitmap_dimensions_from_lpbmi :
    createDIBitmap sampleEnv 1 (some header10x20) 0 0 (some info30x40) 0 State.initial =
      .ok (900, State.initial.emit (.createOffScreenDib 30 40 900)) :=
  rfl

/-- C10 (code defect). With a non-null `lpbmih` and a null `lpbmi`, the redirected
`createDIBitmap` reads through `lpbmi`. -/
theorem createDIBitmap_null_lpbmi_fault :
    createDIBitmap sampleEnv 1 (some header10x20) 0 0 none 0 State.initial =
      .error .nullDereference :=
  rfl

/-! ## C7 — `ExtTextOutW` over the frame -/

/-- C7 as stated fails: a point that hit-tests as the caption, a non-client part, on a
display DC of a non-menu window owned by the calling thread, is drawn through the
original `ExtTextOutW`, and no redraw is requested. -/
theorem extTextOutW_nonclient_counterexample :
    captionEnv.isDisplayDc 1 = true ∧
    captionEnv.MENU_ATOM ≠
      captionEnv.getClassLong (captionEnv.origFunc State.initial .WindowFromDC [.hdc 1])
        GCW_ATOM % 65536 ∧
    captionEnv.getCurrentThreadId = captionEnv.getWindowThreadProcessId
      (captionEnv.origFunc State.initial .WindowFromDC [.hdc 1]) ∧
    isNonClientHitTest (captionEnv.sendMessage
      (State.initial.emit (.callOrig .WindowFromDC [.hdc 1] 7)) 7 WM_NCHITTEST 0
      (ncHitTestLParam (lpToScreen captionEnv 7 1 { x := 10, y := 20 }).2)) = true ∧
    (newEvents State.initial
      (compatGdiDcFunc_ExtTextOutW captionEnv 1 10 20 0 0 0 0 0 State.initial).2).any
        (Event.isCallOrigOf .ExtTextOutW) = true ∧
    (newEvents State.initial
      (compatGdiDcFunc_ExtTextOutW captionEnv 1 10 20 0 0 0 0 0 State.initial).2).any
        Event.isRedrawWindow = false := by
  decide

/-- C7 (amended). For an `ExtTextOutW` call on a display DC whose window is not a menu
and is owned by the calling thread: when the target point, translated to screen
coordinates, hit-tests as the menu bar (`HTMENU`), the wrapper returns `TRUE` and its
effects are the window lookup, the hit test and one `RedrawWindow` with
`RDW_INVALIDATE | RDW_FRAME` on the region "window rectangle minus client rectangle,
offset by the client origin", and the original `ExtTextOutW` is not called; for any
other hit-test answer the call takes the guarded substitution path: after the window
lookup and the hit test it enters the critical section, acquires the write guard,
requests a substitute for `hdc`, calls the original `ExtTextOutW` on the substitute (on
`hdc` when there is none) and returns its result, repairs the position when that result
is non-zero, and releases substitute, guard and critical section. -/
theorem extTextOutW_menu_bar_hit (env : Env) (hdc : HDC)
    (x y options lprect lpString c lpDx : Int) (s : State)
    (hDisplay : env.isDisplayDc hdc = true)
    (hNotMenu : env.MENU_ATOM ≠
      env.getClassLong (env.origFunc s .WindowFromDC [.hdc hdc]) GCW_ATOM % 65536)
    (hThread : env.getCurrentThreadId =
      env.getWindowThreadProcessId (env.origFunc s .WindowFromDC [.hdc hdc])) :
    let hwnd := env.origFunc s .WindowFromDC [.hdc hdc]
    let lParam := ncHitTestLParam (lpToScreen env hwnd hdc { x := x, y := y }).2
    let ht := env.sendMessage (s.emit (.callOrig .WindowFromDC [.hdc hdc] hwnd))
      hwnd WM_NCHITTEST 0 lParam
    let out := compatGdiDcFunc_ExtTextOutW env hdc x y options lprect lpString c lpDx s
    (ht = HTMENU →
      out.1 = TRUE ∧
      newEvents s out.2 =
        [.callOrig .WindowFromDC [.hdc hdc] hwnd,
         .sendMessage hwnd WM_NCHITTEST 0 lParam HTMENU,
         .redrawWindow hwnd (some (ncRegion (env.getWindowInfo hwnd)))
           (RDW_INVALIDATE ||| RDW_FRAME)] ∧
      (newEvents s out.2).any (Event.isCallOrigOf .ExtTextOutW) = false) ∧
    (ht ≠ HTMENU →
      ∃ (r : HDC) (pos : POINT),
        newEvents s out.2 =
          [.callOrig .WindowFromDC [.hdc hdc] hwnd,
           .sendMessage hwnd WM_NCHITTEST 0 lParam ht,
           .enterCriticalSection, .acquireGuard .ACCESS_WRITE, .getDc hdc r,
           .callOrig .ExtTextOutW
             (extTextOutArgs (if r ≠ 0 then r else hdc) x y options lprect lpString c lpDx)
             out.1] ++
          (if out.1 ≠ 0
            then [.getCurrentPositionEx (if r ≠ 0 then r else hdc) pos,
                  .moveToEx hdc pos.x pos.y] else []) ++
          (if r ≠ 0 then [.releaseDc hdc] else []) ++
          [.releaseGuard, .leaveCriticalSection]) := by
  intro hwnd lParam ht out
  have hd2 : hasDisplayDcArg env [.hdc hdc] = true := by
    simp [hasDisplayDcArg, hasDisplayDcArg1, hDisplay]
  constructor
  · intro hHit
    have hout : out = (TRUE, ((s.emit (.callOrig .WindowFromDC [.hdc hdc] hwnd)).emit
        (.sendMessage hwnd WM_NCHITTEST 0 lParam HTMENU)).emit
        (.redrawWindow hwnd (some (ncRegion (env.getWindowInfo hwnd)))
           (RDW_INVALIDATE ||| RDW_FRAME))) := by
      simp only [out, compatGdiDcFunc_ExtTextOutW, if_pos hd2]
      rw [if_neg hNotMenu, if_pos hThread]
      simp only [ht, lParam, hwnd, lpToScreen, if_true] at hHit ⊢
      rw [hHit]
      simp
    rw [hout]
    refine ⟨rfl, ?_, ?_⟩
    · apply newEvents_of_append; simp
    · rw [newEvents_of_append s _ _ (by simp; rfl)]
      simp [Event.isCallOrigOf]
  · intro hHit
    have hout : out = extTextOutW_guarded env hdc x y options lprect lpString c lpDx
        ((s.emit (.callOrig .WindowFromDC [.hdc hdc] hwnd)).emit
          (.sendMessage hwnd WM_NCHITTEST 0 lParam ht)) := by
      have hHit2 : ¬ HTMENU = ht := fun hh => hHit hh.symm
      simp only [out, compatGdiDcFunc_ExtTextOutW, if_pos hd2]
      rw [if_neg hNotMenu, if_pos hThread]
      simp only [ht, lParam, hwnd, lpToScreen, if_true] at hHit2 ⊢
      rw [if_neg hHit2]
    obtain ⟨r, pos, htr⟩ := extTextOutW_guarded_events env hdc x y options lprect lpString
      c lpDx ((s.emit (.callOrig .WindowFromDC [.hdc hdc] hwnd)).emit
          (.sendMessage hwnd WM_NCHITTEST 0 lParam ht))
    refine ⟨r, pos, ?_⟩
    rw [hout]
    apply newEvents_of_append
    rw [htr]
    simp

/-- C7 (amended) in the sample world, whose hit test answers `HTMENU`, and in the world
whose hit test answers `HTCAPTION`, where the guarded block runs on substitute `101`. -/
theorem extTextOutW_menu_bar_hit_witness :
    sampleEnv.isDisplayDc 1 = true ∧
    (compatGdiDcFunc_ExtTextOutW sampleEnv 1 10 20 0 0 0 0 0 State.initial).1 = TRUE ∧
    (newEvents State.initial
      (compatGdiDcFunc_ExtTextOutW sampleEnv 1 10 20 0 0 0 0 0 State.initial).2).any
        (Event.isCallOrigOf .ExtTextOutW) = false ∧
    ∃ (r : HDC) (pos : POINT),
      newEvents State.initial
          (compatGdiDcFunc_ExtTextOutW captionEnv 1 10 20 0 0 0 0 0 State.initial).2 =
        [.callOrig .WindowFromDC [.hdc 1] 7,
         .sendMessage 7 WM_NCHITTEST 0
           (ncHitTestLParam (lpToScreen captionEnv 7 1 { x := 10, y := 20 }).2) HTCAPTION,
         .enterCriticalSection, .acquireGuard .ACCESS_WRITE, .getDc 1 r,
         .callOrig .ExtTextOutW
           (extTextOutArgs (if r ≠ 0 then r else 1) 10 20 0 0 0 0 0)
           (compatGdiDcFunc_ExtTextOutW captionEnv 1 10 20 0 0 0 0 0 State.initial).1] ++
        (if (compatGdiDcFunc_ExtTextOutW captionEnv 1 10 20 0 0 0 0 0 State.initial).1 ≠ 0
          then [.getCurrentPositionEx (if r ≠ 0 then r else 1) pos,
                .moveToEx 1 pos.x pos.y] else []) ++
        (if r ≠ 0 then [.releaseDc 1] else []) ++
        [.releaseGuard, .leaveCriticalSection] :=
  ⟨by decide,
   ((extTextOutW_menu_bar_hit sampleEnv 1 10 20 0 0 0 0 0 State.initial
      (by decide) (by decide) (by decide)).1 (by decide)).1,
   ((extTextOutW_menu_bar_hit sampleEnv 1 10 20 0 0 0 0 0 State.initial
      (by decide) (by decide) (by decide)).1 (by decide)).2.2,
   (extTextOutW_menu_bar_hit captionEnv 1 10 20 0 0 0 0 0 State.initial
      (by decide) (by decide) (by decide)).2 (by decide)⟩

end DcFunctions
